import Mathlib

/-!
Verification of the `neuralmagicML.tensorflow` modifier-scheduling and
image-folder dataset code.

The Python source is shallowly embedded: fractional epochs (Python `float`)
become `ℚ`, Python `int` becomes `ℤ`/`ℕ`, Python `round` (round half to even)
becomes `pyRound`, fallible constructors and methods return
`Except PyError _`, and the filesystem / host-framework collaborators are
explicit parameters or records.
-/

namespace NeuralMagic

/-- Python exceptions raised by the embedded code. -/
inductive PyError where
  | valueError (msg : String)
  | runtimeError (msg : String)
deriving DecidableEq, Repr

/-- Python's built-in `round` on a real (embedded rational) value:
round half to even, as used by `epoch_to_steps` and `start_end_steps`. -/
def pyRound (q : ℚ) : ℤ :=
  if q - ⌊q⌋ < 1 / 2 then ⌊q⌋
  else if 1 / 2 < q - ⌊q⌋ then ⌊q⌋ + 1
  else if ⌊q⌋ % 2 = 0 then ⌊q⌋ else ⌊q⌋ + 1

/-- `epoch_to_steps` from `neuralmagicML/tensorflow/recal/modifier.py`:
clamp `epoch` below by `min_epoch`, then `round(steps_per_epoch * epoch)`. -/
def epoch_to_steps (epoch : ℚ) (steps_per_epoch : ℤ) (min_epoch : ℚ := 0) : ℤ :=
  pyRound ((steps_per_epoch : ℚ) * (if epoch < min_epoch then min_epoch else epoch))

/-- The scheduling state of a `ScheduledModifier`
(`neuralmagicML/tensorflow/recal/modifier.py`): fractional start and end
epochs. -/
structure ScheduledModifier where
  start_epoch : ℚ
  end_epoch : ℚ
deriving DecidableEq, Repr

/-- `ScheduledModifier.start_end_steps` from
`neuralmagicML/tensorflow/recal/modifier.py`: convert the start and end
epochs into steps, with sentinel values for negative epochs and a one-step
offset applied when `after_optim` is true (skipped for the `-1` end
sentinel). -/
def ScheduledModifier.start_end_steps (m : ScheduledModifier)
    (steps_per_epoch : ℤ) (after_optim : Bool) : ℤ × ℤ :=
  let start_step :=
    if (0 : ℚ) ≤ m.start_epoch then pyRound (m.start_epoch * steps_per_epoch) else 0
  let end_step :=
    if (0 : ℚ) ≤ m.end_epoch then pyRound (m.end_epoch * steps_per_epoch) - 1 else -1
  if after_optim then
    (start_step + 1, if -1 < end_step then end_step + 1 else end_step)
  else
    (start_step, end_step)

/-- The lifecycle state of a base `Modifier`
(`neuralmagicML/tensorflow/recal/modifier.py`): whether `create_ops` has
run (`self._initialized`). -/
structure Modifier where
  initialized : Bool
deriving DecidableEq, Repr

/-- Modelled from the spec: `BaseModifier.__init__` (in `neuralmagicML.recal`,
not under `src/`) constructs a modifier on which `create_ops` has not yet been
called, so the lifecycle flag starts unset. -/
def Modifier.new : Modifier := { initialized := false }

/-- `Modifier.create_ops`: marks the modifier initialized and returns the
(empty) list of modifying ops and the (empty) dict of named extras. -/
def Modifier.create_ops (_m : Modifier) (_steps_per_epoch : ℤ) :
    Modifier × List String × List (String × String) :=
  ({ initialized := true }, [], [])

/-- `Modifier.initialize_session`: raises a `RuntimeError` unless
`create_ops` has been called first. -/
def Modifier.initialize_session (m : Modifier) : Except PyError Unit :=
  if m.initialized = false then
    Except.error (PyError.runtimeError
      "create_ops for modifier must be called before initialize_session")
  else
    Except.ok ()

/-- `Modifier.complete_graph`: raises a `RuntimeError` unless `create_ops`
has been called first. -/
def Modifier.complete_graph (m : Modifier) : Except PyError Unit :=
  if m.initialized = false then
    Except.error (PyError.runtimeError
      "create_ops for modifier must be called before complete_graph")
  else
    Except.ok ()

/-- Modelled from the spec: `BaseScheduled.__init__` (in
`neuralmagicML.recal`, not under `src/`) validates at construction that
`end_epoch` satisfies the configured comparator relationship to
`start_epoch` — `-1`: unconstrained; `0`: equal or greater; `1`: strictly
greater — raising immediately on a violating pair, as described by the spec
and by the `end_comparator` docstring in `modifier.py`. -/
def scheduledInit (start_epoch end_epoch : ℚ) (end_comparator : ℤ) :
    Except PyError ScheduledModifier :=
  if end_comparator = -1 then
    Except.ok { start_epoch := start_epoch, end_epoch := end_epoch }
  else if end_comparator = 0 then
    if start_epoch ≤ end_epoch then
      Except.ok { start_epoch := start_epoch, end_epoch := end_epoch }
    else
      Except.error (PyError.valueError
        "end_epoch must be equal to or greater than start_epoch")
  else if end_comparator = 1 then
    if start_epoch < end_epoch then
      Except.ok { start_epoch := start_epoch, end_epoch := end_epoch }
    else
      Except.error (PyError.valueError
        "end_epoch must be greater than start_epoch")
  else
    Except.error (PyError.valueError "unknown end_comparator")

/-- A training-session hook as the host framework sees it: the fetches the
hook requests from its `before_run` override (`none` when the method is not
overridden), and the value its `after_run` override returns. -/
structure SessionRunHook where
  before_run : Option (List String)
  after_run : Option (List String)
deriving DecidableEq, Repr

/-- Modelled from the spec: the host training framework's per-step hook
dispatch (an external collaborator). Before running a step the framework
collects the `SessionRunArgs` fetches returned by each hook's `before_run`
and executes them together with the step's base fetches; the value returned
by `after_run` is discarded. -/
def stepFetches (baseFetches : List String) (hooks : List SessionRunHook) :
    List String :=
  baseFetches ++ (hooks.map (fun h => h.before_run.getD [])).flatten

/-- `ModifierSessionRunHook` from `neuralmagicML/tensorflow/recal/modifier.py`:
the class overrides only `after_run`, returning
`SessionRunArgs(fetches=self._mod_ops)` there; `before_run` is left at the
framework default. -/
def ModifierSessionRunHook (mod_ops : List String) : SessionRunHook :=
  { before_run := none, after_run := some mod_ops }

/-- `clean_path` from `neuralmagicML.utils` (not under `src/`): modelled from
the spec as the identity on already-normalized paths — the dataset-root claim
only depends on the existence check that follows it. -/
def clean_path (path : String) : String := path

/-- `os.path.join` on two components with the POSIX separator. -/
def joinPath (a b : String) : String := a ++ "/" ++ b

/-- The filesystem as seen by `ImageFolderDataset.__init__`: existence of a
path, the subdirectories matching `glob(root/*/)` and the files matching
`glob(root/*/*)`. -/
structure FileSystem where
  pathExists : String → Bool
  subdirs : String → List String
  filesUnder : String → List String

/-- The state an `ImageFolderDataset` holds after construction
(`neuralmagicML/tensorflow/datasets/classification/imagefolder.py`). -/
structure ImageFolderDataset where
  root : String
  train : Bool
  image_size : ℕ
  num_images : ℕ
  num_classes : ℕ
deriving DecidableEq, Repr

/-- `ImageFolderDataset.__init__`: resolve the split root as
`clean_path(root)/train` or `clean_path(root)/val`, raise a `ValueError` when
it does not exist, and otherwise count images (`glob(root/*/*)`) and classes
(`glob(root/*/)`). -/
def ImageFolderDataset.init (fs : FileSystem) (root : String) (train : Bool)
    (image_size : ℕ) : Except PyError ImageFolderDataset :=
  let r := joinPath (clean_path root) (if train then "train" else "val")
  if fs.pathExists r = false then
    Except.error (PyError.valueError ("Data set folder " ++ r ++ " must exist"))
  else
    Except.ok { root := r, train := train, image_size := image_size,
                num_images := (fs.filesUnder r).length,
                num_classes := (fs.subdirs r).length }

/-- Insert a string into a sorted list, keeping ascending order. -/
def insertSorted (x : String) : List String → List String
  | [] => [x]
  | y :: ys => if x ≤ y then x :: y :: ys else y :: insertSorted x ys

/-- `labels_strs.sort()` in `ImageFolderDataset.creator`: CPython's built-in
stable ascending sort (external library code), modelled as insertion sort,
which yields the same ascending order on the distinct class-label strings. -/
def pySort (l : List String) : List String := l.foldr insertSorted []

/-- `numpy.identity(n)[i].tolist()` in `ImageFolderDataset.creator` (numpy is
an external collaborator): row `i` of the `n × n` identity matrix, a list
with a `1` exactly at position `i`. -/
def oneHotRow (n i : ℕ) : List ℚ :=
  (List.range n).map (fun k => if k = i then 1 else 0)

/-- The `labels_dict` built by `ImageFolderDataset.creator`, in sorted-label
order: each class label paired with the one-hot row for its sorted index. -/
def creatorLabelVectors (classNames : List String) : List (String × List ℚ) :=
  (pySort classNames).enum.map
    (fun p => (p.2, oneHotRow (pySort classNames).length p.1))

/-- The label vector assigned to the class at sorted index `i`
(empty when `i` is out of range). -/
def vecAt (classNames : List String) (i : ℕ) : List ℚ :=
  ((creatorLabelVectors classNames)[i]?.map Prod.snd).getD []

/-- Dot product of two label vectors. -/
def dotQ (a b : List ℚ) : ℚ := (List.zipWith (· * ·) a b).sum

/-- One swap `x[i], x[j] = x[j], x[i]` of CPython's `random.shuffle` loop
body: the values at the two positions are exchanged (the positions are
always in bounds in the loop; out-of-bounds indices leave the list
unchanged). -/
def listSwap {α : Type _} (l : List α) (i j : ℕ) : List α :=
  match l[i]?, l[j]? with
  | some x, some y => (l.set i y).set j x
  | _, _ => l

/-- The loop of CPython's `random.shuffle` (external library code backing
`random.Random(42).shuffle` in `ImageFolderDataset.creator`):
`for i in reversed(range(1, len(x))): j = randbelow(i + 1); swap x[i], x[j]`,
with `rb` the generator's value stream (`% (i + 1)` models the
`_randbelow(i + 1)` bound contract). -/
def pyShuffleAux {α : Type _} (rb : ℕ → ℕ → ℕ) : ℕ → List α → List α
  | 0, l => l
  | i + 1, l => pyShuffleAux rb i (listSwap l (i + 1) (rb (i + 1) (i + 2) % (i + 2)))

/-- CPython's `random.shuffle` on a list, driven by the value stream `rb`. -/
def pyShuffle {α : Type _} (rb : ℕ → ℕ → ℕ) (l : List α) : List α :=
  pyShuffleAux rb (l.length - 1) l

/-- Modelled from the spec: the value stream of CPython's
`random.Random(42)._randbelow` (a Mersenne Twister seeded with the literal
`42`, external library code) is one fixed deterministic sequence; its exact
values are irrelevant to the claims, so it is modelled as an explicit fixed
function of the call index and bound. -/
def mtStream42 : ℕ → ℕ → ℕ := fun callIndex _bound => 42 + 2654435761 * callIndex

/-- One run of `random.Random(42).shuffle(files_labels)` in
`ImageFolderDataset.creator`: `ambientState` stands for the interpreter's
ambient RNG state at call time, which the call ignores because
`random.Random(42)` constructs a fresh generator from the literal seed. -/
def creatorShuffle (_ambientState : ℕ) (pairs : List (String × List ℚ)) :
    List (String × List ℚ) :=
  pyShuffle mtStream42 pairs

/-! ### Lemmas about `pyRound` -/

theorem pyRound_intCast (z : ℤ) : pyRound (z : ℚ) = z := by
  simp [pyRound, Int.floor_intCast]

theorem floor_le_pyRound (q : ℚ) : ⌊q⌋ ≤ pyRound q := by
  unfold pyRound
  split_ifs <;> omega

theorem pyRound_le_floor_add_one (q : ℚ) : pyRound q ≤ ⌊q⌋ + 1 := by
  unfold pyRound
  split_ifs <;> omega

theorem pyRound_mono {a b : ℚ} (hab : a ≤ b) : pyRound a ≤ pyRound b := by
  rcases lt_or_le ⌊a⌋ ⌊b⌋ with hf | hf
  · calc pyRound a ≤ ⌊a⌋ + 1 := pyRound_le_floor_add_one a
      _ ≤ ⌊b⌋ := by omega
      _ ≤ pyRound b := floor_le_pyRound b
  · have hfe : ⌊a⌋ = ⌊b⌋ := le_antisymm (Int.floor_mono hab) hf
    unfold pyRound
    rw [hfe]
    split_ifs <;> first | omega | linarith

theorem pyRound_nearest (q : ℚ) : |(pyRound q : ℚ) - q| ≤ 1 / 2 := by
  have h1 : (⌊q⌋ : ℚ) ≤ q := Int.floor_le q
  have h2 : q < (⌊q⌋ : ℚ) + 1 := Int.lt_floor_add_one q
  unfold pyRound
  split_ifs <;> rw [abs_le] <;> constructor <;> push_cast <;> linarith

/-! ### Lemmas about sorting and one-hot rows -/

theorem length_insertSorted (x : String) (l : List String) :
    (insertSorted x l).length = l.length + 1 := by
  induction l with
  | nil => rfl
  | cons y ys ih => by_cases h : x ≤ y <;> simp [insertSorted, h, ih]

theorem pySort_length (l : List String) : (pySort l).length = l.length := by
  induction l with
  | nil => rfl
  | cons y ys ih =>
    show (insertSorted y (pySort ys)).length = ys.length + 1
    rw [length_insertSorted, ih]

theorem vecAt_eq (names : List String) (i : ℕ) (hi : i < (pySort names).length) :
    vecAt names i = oneHotRow (pySort names).length i := by
  unfold vecAt creatorLabelVectors
  rw [List.getElem?_map, List.getElem?_enum,
    List.getElem?_eq_getElem hi]
  rfl

theorem oneHotRow_getElem? (n i j : ℕ) (hj : j < n) :
    (oneHotRow n i)[j]? = some (if j = i then 1 else 0) := by
  rw [oneHotRow, List.getElem?_map, List.getElem?_range hj]
  rfl

theorem dotQ_oneHotRow (n i j : ℕ) :
    dotQ (oneHotRow n i) (oneHotRow n j) = if i = j ∧ j < n then 1 else 0 := by
  induction n with
  | zero => simp [dotQ, oneHotRow]
  | succ n ih =>
    have hsplit : ∀ m : ℕ, oneHotRow (n + 1) m =
        oneHotRow n m ++ [if n = m then (1 : ℚ) else 0] := by
      intro m
      simp [oneHotRow, List.range_succ]
    have hlen : (oneHotRow n i).length = (oneHotRow n j).length := by
      simp [oneHotRow]
    rw [hsplit i, hsplit j, dotQ, List.zipWith_append _ _ _ _ _ hlen,
      List.sum_append]
    have ihd : (List.zipWith (· * ·) (oneHotRow n i) (oneHotRow n j)).sum =
        if i = j ∧ j < n then 1 else 0 := ih
    rw [ihd]
    simp only [List.zipWith, List.sum_cons, List.sum_nil]
    split_ifs <;> first | omega | norm_num

/-! ### Lemmas about swapping and shuffling -/

theorem swapHead_perm {α : Type _} (t : List α) :
    ∀ (k : ℕ) (h : k < t.length) (a : α),
      List.Perm (t.get ⟨k, h⟩ :: t.set k a) (a :: t) := by
  induction t with
  | nil =>
    intro k h a
    simp at h
  | cons b t' ih =>
    intro k h a
    cases k with
    | zero => exact List.Perm.swap a b t'
    | succ k =>
      have h' : k < t'.length := Nat.lt_of_succ_lt_succ h
      show List.Perm (t'.get ⟨k, h'⟩ :: b :: t'.set k a) (a :: b :: t')
      exact ((List.Perm.swap b (t'.get ⟨k, h'⟩) (t'.set k a)).trans
        (List.Perm.cons b (ih k h' a))).trans (List.Perm.swap a b t')

theorem set_set_swap_perm {α : Type _} :
    ∀ (l : List α) (i j : ℕ) (hi : i < l.length) (hj : j < l.length),
      List.Perm ((l.set i (l.get ⟨j, hj⟩)).set j (l.get ⟨i, hi⟩)) l := by
  intro l
  induction l with
  | nil =>
    intro i j hi hj
    simp at hi
  | cons a t ih =>
    intro i j hi hj
    cases i with
    | zero =>
      cases j with
      | zero => exact List.Perm.refl _
      | succ j =>
        have hj' : j < t.length := Nat.lt_of_succ_lt_succ hj
        show List.Perm (t.get ⟨j, hj'⟩ :: t.set j a) (a :: t)
        exact swapHead_perm t j hj' a
    | succ i =>
      have hi' : i < t.length := Nat.lt_of_succ_lt_succ hi
      cases j with
      | zero =>
        show List.Perm (t.get ⟨i, hi'⟩ :: t.set i a) (a :: t)
        exact swapHead_perm t i hi' a
      | succ j =>
        have hj' : j < t.length := Nat.lt_of_succ_lt_succ hj
        show List.Perm (a :: (t.set i (t.get ⟨j, hj'⟩)).set j (t.get ⟨i, hi'⟩))
          (a :: t)
        exact List.Perm.cons a (ih i j hi' hj')

theorem listSwap_perm {α : Type _} (l : List α) (i j : ℕ) :
    List.Perm (listSwap l i j) l := by
  unfold listSwap
  cases hx : l[i]? with
  | none => cases l[j]? <;> exact List.Perm.refl l
  | some x =>
    cases hy : l[j]? with
    | none => exact List.Perm.refl l
    | some y =>
      obtain ⟨hi, hxv⟩ := List.getElem?_eq_some.mp hx
      obtain ⟨hj, hyv⟩ := List.getElem?_eq_some.mp hy
      have hx' : l.get ⟨i, hi⟩ = x := hxv
      have hy' : l.get ⟨j, hj⟩ = y := hyv
      rw [← hx', ← hy']
      exact set_set_swap_perm l i j hi hj

theorem pyShuffleAux_perm {α : Type _} (rb : ℕ → ℕ → ℕ) :
    ∀ (n : ℕ) (l : List α), List.Perm (pyShuffleAux rb n l) l := by
  intro n
  induction n with
  | zero =>
    intro l
    exact List.Perm.refl l
  | succ n ih =>
    intro l
    exact (ih _).trans (listSwap_perm l (n + 1) _)

theorem pyShuffle_perm {α : Type _} (rb : ℕ → ℕ → ℕ) (l : List α) :
    List.Perm (pyShuffle rb l) l :=
  pyShuffleAux_perm rb (l.length - 1) l

/-! ### Claim theorems: schedule conversion -/

/-- C1: `epoch_to_steps(epoch, steps_per_epoch, min_epoch)` clamps `epoch`
below by `min_epoch`, multiplies the clamped epoch by `steps_per_epoch`, and
rounds the product to the nearest integer step: it returns
`round(steps_per_epoch * max(epoch, min_epoch))`, a value within `1/2` of the
product. -/
theorem epoch_to_steps_round_max (epoch : ℚ) (steps_per_epoch : ℤ) (min_epoch : ℚ) :
    epoch_to_steps epoch steps_per_epoch min_epoch =
        pyRound ((steps_per_epoch : ℚ) * max epoch min_epoch) ∧
      |(epoch_to_steps epoch steps_per_epoch min_epoch : ℚ) -
          (steps_per_epoch : ℚ) * max epoch min_epoch| ≤ 1 / 2 := by
  have hmax : (if epoch < min_epoch then min_epoch else epoch) = max epoch min_epoch := by
    rcases lt_or_le epoch min_epoch with h | h
    · simp [h, max_eq_right h.le]
    · simp [not_lt.mpr h, max_eq_left h]
  constructor
  · rw [epoch_to_steps, hmax]
  · rw [epoch_to_steps, hmax]
    exact pyRound_nearest _

/-- C2: for every `ScheduledModifier` and `steps_per_epoch`, the `start_step`
returned by `start_end_steps` with `after_optim = True` is exactly one greater
than with `after_optim = False`. -/
theorem start_end_steps_after_optim_start_succ (m : ScheduledModifier)
    (steps_per_epoch : ℤ) :
    (m.start_end_steps steps_per_epoch true).1 =
      (m.start_end_steps steps_per_epoch false).1 + 1 := by
  simp [ScheduledModifier.start_end_steps]

/-- C5 (as stated, refuted): `epoch_to_steps` is not monotone in `epoch` for
*every* `steps_per_epoch`: with `steps_per_epoch = -1` and `min_epoch = 0`,
the epochs `0 ≤ 1` (both at least `min_epoch`) map to steps `0 > -1`. -/
theorem epoch_to_steps_not_monotone_cex :
    (0 : ℚ) ≤ 1 ∧ (0 : ℚ) ≤ (0 : ℚ) ∧ (0 : ℚ) ≤ (1 : ℚ) ∧
      ¬ epoch_to_steps 0 (-1) 0 ≤ epoch_to_steps 1 (-1) 0 := by
  refine ⟨by norm_num, le_refl _, by norm_num, ?_⟩
  have h0 : epoch_to_steps 0 (-1) 0 = 0 := by
    norm_num [epoch_to_steps, pyRound]
  have h1 : epoch_to_steps 1 (-1) 0 = -1 := by
    norm_num [epoch_to_steps, pyRound]
  omega

/-- C5 (amended): for every `steps_per_epoch ≥ 0` and fixed `min_epoch`,
`epoch_to_steps` is monotone non-decreasing in `epoch` over epochs at least
`min_epoch`. -/
theorem epoch_to_steps_monotone {steps_per_epoch : ℤ} {min_epoch e1 e2 : ℚ}
    (hspe : 0 ≤ steps_per_epoch) (h1 : min_epoch ≤ e1) (h2 : min_epoch ≤ e2)
    (h12 : e1 ≤ e2) :
    epoch_to_steps e1 steps_per_epoch min_epoch ≤
      epoch_to_steps e2 steps_per_epoch min_epoch := by
  unfold epoch_to_steps
  rw [if_neg (not_lt.mpr h1), if_neg (not_lt.mpr h2)]
  exact pyRound_mono (by
    have : (0 : ℚ) ≤ (steps_per_epoch : ℚ) := by exact_mod_cast hspe
    exact mul_le_mul_of_nonneg_left h12 this)

/-- Witness for C5 (amended): instantiated at `e1 = 1`, `e2 = 2`,
`steps_per_epoch = 10`, `min_epoch = 0`. -/
theorem epoch_to_steps_monotone_witness :
    epoch_to_steps 1 10 0 ≤ epoch_to_steps 2 10 0 :=
  epoch_to_steps_monotone (by norm_num) (by norm_num) (by norm_num) (by norm_num)

/-- C10 (as stated, refuted): with `end_epoch = 0 ≥ 0`, `steps_per_epoch =
100`, and `after_optim = True`, the code returns `end_step = -1` (the
`after_optim` offset is skipped because `round(0 * 100) - 1 = -1`), while the
claim's formula `round(end_epoch * steps_per_epoch) - 1` plus the offset
predicts `0`. -/
theorem start_end_steps_sentinel_cex :
    ((⟨-1, 0⟩ : ScheduledModifier).start_end_steps 100 true).2 ≠
        pyRound ((0 : ℚ) * 100) - 1 + 1 ∧
      ((⟨-1, 0⟩ : ScheduledModifier).start_end_steps 100 true).2 = -1 ∧
      pyRound ((0 : ℚ) * 100) - 1 + 1 = 0 := by
  have hend : ((⟨-1, 0⟩ : ScheduledModifier).start_end_steps 100 true).2 = -1 := by
    norm_num [ScheduledModifier.start_end_steps, pyRound]
  have hclaim : pyRound ((0 : ℚ) * 100) - 1 + 1 = 0 := by
    norm_num [pyRound]
  exact ⟨by omega, hend, hclaim⟩

/-- C10 (amended): sentinel handling in `start_end_steps`. With
`start_epoch < 0` the start step is `0` (`1` when `after_optim`); with
`end_epoch < 0` the end step is `-1` regardless of `after_optim`; with
`end_epoch ≥ 0` the end step is `round(end_epoch * steps_per_epoch) - 1`,
and the `after_optim` offset is added only when that value exceeds `-1`. -/
theorem start_end_steps_sentinel (m : ScheduledModifier) (steps_per_epoch : ℤ) :
    (m.start_epoch < 0 →
        (m.start_end_steps steps_per_epoch false).1 = 0 ∧
        (m.start_end_steps steps_per_epoch true).1 = 1) ∧
      (m.end_epoch < 0 →
        (m.start_end_steps steps_per_epoch false).2 = -1 ∧
        (m.start_end_steps steps_per_epoch true).2 = -1) ∧
      ((0 : ℚ) ≤ m.end_epoch →
        (m.start_end_steps steps_per_epoch false).2 =
            pyRound (m.end_epoch * steps_per_epoch) - 1 ∧
          (m.start_end_steps steps_per_epoch true).2 =
            (if -1 < pyRound (m.end_epoch * steps_per_epoch) - 1 then
                pyRound (m.end_epoch * steps_per_epoch) - 1 + 1
              else pyRound (m.end_epoch * steps_per_epoch) - 1)) := by
  refine ⟨fun hs => ?_, fun he => ?_, fun he => ?_⟩
  · simp [ScheduledModifier.start_end_steps, not_le.mpr hs]
  · simp [ScheduledModifier.start_end_steps, not_le.mpr he]
  · simp [ScheduledModifier.start_end_steps, he]

/-- Witness for C10 (amended): instantiated at `start_epoch = -1`,
`end_epoch = 2`, `steps_per_epoch = 10`. -/
theorem start_end_steps_sentinel_witness :
    ((⟨-1, 2⟩ : ScheduledModifier).start_end_steps 10 false).1 = 0 ∧
      ((⟨-1, 2⟩ : ScheduledModifier).start_end_steps 10 true).1 = 1 ∧
      ((⟨-1, 2⟩ : ScheduledModifier).start_end_steps 10 false).2 =
        pyRound ((2 : ℚ) * 10) - 1 := by
  have h := start_end_steps_sentinel (⟨-1, 2⟩ : ScheduledModifier) 10
  exact ⟨(h.1 (by norm_num)).1, (h.1 (by norm_num)).2, (h.2.2 (by norm_num)).1⟩

/-! ### Claim theorems: modifier lifecycle -/

/-- C4: `initialize_session` and `complete_graph` raise a `RuntimeError`
exactly when `create_ops` has not yet been called: a freshly constructed
modifier has the flag unset, each method errors iff the flag is unset,
`create_ops` sets the flag, and after it both methods succeed. -/
theorem modifier_lifecycle_error_iff (m : Modifier) (steps_per_epoch : ℤ) :
    Modifier.new.initialized = false ∧
      (m.initialize_session =
          Except.error (PyError.runtimeError
            "create_ops for modifier must be called before initialize_session") ↔
        m.initialized = false) ∧
      (m.complete_graph =
          Except.error (PyError.runtimeError
            "create_ops for modifier must be called before complete_graph") ↔
        m.initialized = false) ∧
      (m.create_ops steps_per_epoch).1.initialized = true ∧
      (m.create_ops steps_per_epoch).1.initialize_session = Except.ok () ∧
      (m.create_ops steps_per_epoch).1.complete_graph = Except.ok () := by
  refine ⟨rfl, ?_, ?_, rfl, rfl, rfl⟩ <;>
    cases hm : m.initialized <;>
      simp [Modifier.initialize_session, Modifier.complete_graph, hm]

/-- C6: construction of a `ScheduledModifier` enforces the configured
comparator between `end_epoch` and `start_epoch`: with `end_comparator = -1`
any pair is accepted; with `0` construction succeeds iff
`end_epoch ≥ start_epoch`; with `1` iff `end_epoch > start_epoch`; a
violating pair yields an immediate error. -/
theorem scheduled_end_comparator_iff (s e : ℚ) :
    (scheduledInit s e (-1)).isOk = true ∧
      ((scheduledInit s e 0).isOk = true ↔ s ≤ e) ∧
      ((scheduledInit s e 1).isOk = true ↔ s < e) := by
  refine ⟨by simp [scheduledInit, Except.isOk, Except.toBool], ?_, ?_⟩
  · by_cases h : s ≤ e <;>
      simp [scheduledInit, Except.isOk, Except.toBool, h]
  · by_cases h : s < e <;>
      simp [scheduledInit, Except.isOk, Except.toBool, h]

/-! ### Claim theorems: execution hook and dataset construction -/

/-- C3 (refuting evaluation): the per-step fetches of a step wrapped by
`ModifierSessionRunHook` never include `mod_ops` — the class overrides
`after_run` (whose return value the framework discards) instead of
`before_run`, so the step's fetches are exactly the base fetches and the
`mod_ops` only appear in the discarded `after_run` return value. -/
theorem modifier_hook_mod_ops_not_fetched (baseFetches mod_ops : List String) :
    stepFetches baseFetches [ModifierSessionRunHook mod_ops] = baseFetches ∧
      (ModifierSessionRunHook mod_ops).before_run = none ∧
      (ModifierSessionRunHook mod_ops).after_run = some mod_ops := by
  refine ⟨?_, rfl, rfl⟩
  simp [stepFetches, ModifierSessionRunHook]

/-- C9: constructing an `ImageFolderDataset` succeeds exactly when the
resolved split root (`root/train` for `train = True`, `root/val` otherwise)
exists; when it does not, construction raises a `ValueError` immediately and
no dataset state is produced. -/
theorem imagefolder_missing_root_raises (fs : FileSystem) (root : String)
    (train : Bool) (image_size : ℕ) :
    (ImageFolderDataset.init fs root train image_size =
        Except.error (PyError.valueError
          ("Data set folder " ++
              joinPath (clean_path root) (if train then "train" else "val") ++
            " must exist")) ↔
      fs.pathExists
          (joinPath (clean_path root) (if train then "train" else "val")) =
        false) ∧
      ((∃ ds, ImageFolderDataset.init fs root train image_size = Except.ok ds) ↔
        fs.pathExists
            (joinPath (clean_path root) (if train then "train" else "val")) =
          true) := by
  cases hex : fs.pathExists
      (joinPath (clean_path root) (if train then "train" else "val")) <;>
    simp [ImageFolderDataset.init, hex]

/-- C7: the label vector the creator assigns to the class at sorted index `i`
is row `i` of the identity matrix (entrywise equality with `1 : Matrix _ _ ℚ`),
label vectors of distinct classes are orthogonal, and each has unit dot
product with itself. -/
theorem one_hot_rows_identity (names : List String) (i j : ℕ)
    (hi : i < (pySort names).length) (hj : j < (pySort names).length) :
    (vecAt names i)[j]? =
        some ((1 : Matrix (Fin (pySort names).length)
            (Fin (pySort names).length) ℚ) ⟨i, hi⟩ ⟨j, hj⟩) ∧
      (i ≠ j → dotQ (vecAt names i) (vecAt names j) = 0) ∧
      dotQ (vecAt names i) (vecAt names i) = 1 := by
  rw [vecAt_eq names i hi, vecAt_eq names j hj]
  refine ⟨?_, fun hij => ?_, ?_⟩
  · rw [oneHotRow_getElem? _ _ _ hj, Matrix.one_apply]
    simp [Fin.mk.injEq, eq_comm]
  · rw [dotQ_oneHotRow]
    simp [hij]
  · rw [dotQ_oneHotRow]
    simp [hi]

/-- Witness for C7: with classes `["b", "a"]` (sorted to `["a", "b"]`), the
vectors at sorted indices `0` and `1` are orthogonal and the vector at index
`0` has unit norm. -/
theorem one_hot_rows_identity_witness :
    dotQ (vecAt ["b", "a"] 0) (vecAt ["b", "a"] 1) = 0 ∧
      dotQ (vecAt ["b", "a"] 0) (vecAt ["b", "a"] 0) = 1 := by
  have h0 : 0 < (pySort ["b", "a"]).length := by
    rw [pySort_length]
    norm_num
  have h1 : 1 < (pySort ["b", "a"]).length := by
    rw [pySort_length]
    norm_num
  exact ⟨(one_hot_rows_identity ["b", "a"] 0 1 h0 h1).2.1 (by norm_num),
    (one_hot_rows_identity ["b", "a"] 0 0 h0 h0).2.2⟩

/-- C8: two runs of the creator's seed-42 shuffle on the same file/label
pairs produce identical output — the shuffled order is a function of the
input list only, independent of the ambient interpreter state — and the
output is a permutation of the input pairs. -/
theorem creator_shuffle_deterministic_perm (run1 run2 : ℕ)
    (pairs : List (String × List ℚ)) :
    creatorShuffle run1 pairs = creatorShuffle run2 pairs ∧
      List.Perm (creatorShuffle run1 pairs) pairs :=
  ⟨rfl, pyShuffle_perm mtStream42 pairs⟩

end NeuralMagic
